import Mathlib

/-!
Shallow embedding of `src/server.js`, an Express HTTP JSON API over a
`company` table backed by a MariaDB connection pool.

Each mutating route handler is embedded as a pure function from the request,
the table state and a database-failure oracle to an outcome: a status code,
the 400 error body, the new table state, and a trace of connection/query
events in the order the handler performs them.

The express-validator chains on lines 85-88, 148-151, 236-239 and 287-288 of
`server.js` are embedded field by field: sanitizers and validators run in
chain order, so `trim()` runs before `isLength`, and `escape()` runs after
the length check; an absent field is coerced to the empty string before a
non-optional validator sees it; `optional()` skips the chain when the field
is absent.  All chains run and their errors are concatenated, which is what
`validationResult(req).array()` reports.
-/

namespace Server

/-- One entry of `errors.array()`: the field path and the `withMessage` text. -/
structure FieldError where
  path : String
  msg : String
deriving DecidableEq, Repr

/-- express-validator coerces an absent (undefined) field to `""` before a
non-optional validator or sanitizer runs on it. -/
def toVal : Option String → String
  | none => ""
  | some s => s

/-- validator.js `escape` on one character: `&`, `"`, the apostrophe, `<`,
`>`, `/`, the backslash and the backtick become HTML entities, every other
character is kept.  Characters are given by code point to keep the source
readable: 38 `&`, 34 `"`, 39 apostrophe, 60 `<`, 62 `>`, 47 `/`,
92 backslash, 96 backtick. -/
def escapeChar (c : Char) : String :=
  if c = Char.ofNat 38 then "&amp;"
  else if c = Char.ofNat 34 then "&quot;"
  else if c = Char.ofNat 39 then "&#x27;"
  else if c = Char.ofNat 60 then "&lt;"
  else if c = Char.ofNat 62 then "&gt;"
  else if c = Char.ofNat 47 then "&#x2F;"
  else if c = Char.ofNat 92 then "&#x5C;"
  else if c = Char.ofNat 96 then "&#96;"
  else String.singleton c

/-- validator.js `escape`: each special character replaced independently. -/
def escapeHtml (s : String) : String :=
  String.join (s.toList.map escapeChar)

/-- Drop the leading whitespace characters of a character list. -/
def dropLeadingWs : List Char → List Char
  | [] => []
  | c :: cs => if c.isWhitespace then dropLeadingWs cs else c :: cs

/-- validator.js `trim()` with the default character set: strip whitespace
from both ends of the string. -/
def jsTrim (s : String) : String :=
  String.mk (((dropLeadingWs s.toList).reverse |> dropLeadingWs).reverse)

/-- `isLength({ min, max })`: the string length lies in the closed range. -/
def lenOk (lo hi : Nat) (s : String) : Bool :=
  decide (lo ≤ s.length) && decide (s.length ≤ hi)

/-- `withMessage` text of the companyId chains (lines 86, 149, 237, 288). -/
def idMsg : String := "Company ID must be between 1 and 6 characters long"

/-- `withMessage` text of the companyName chains (lines 87, 150, 238). -/
def nameMsg : String := "Company Name must be between 1 and 25 characters"

/-- `withMessage` text of the companyCity chains (lines 88, 151, 239). -/
def cityMsg : String := "Company City must be between 1 and 25 characters"

/-- Body of a POST /api/companies request; every field may be absent. -/
structure PostBody where
  companyId : Option String
  companyName : Option String
  companyCity : Option String
deriving DecidableEq, Repr

/-- Line 86: `body('companyId').isLength({min:1,max:6})` — the raw value
is length-checked, with no trim and no escape. -/
def postIdErrors (b : PostBody) : List FieldError :=
  if lenOk 1 6 (toVal b.companyId) then [] else [⟨"companyId", idMsg⟩]

/-- Line 87: `body('companyName').trim().isLength({min:1,max:25}).escape()` —
the length check sees the trimmed (not yet escaped) value. -/
def postNameErrors (b : PostBody) : List FieldError :=
  if lenOk 1 25 (jsTrim (toVal b.companyName)) then [] else [⟨"companyName", nameMsg⟩]

/-- Line 88: `body('companyCity').trim().isLength({min:1,max:25}).escape()`. -/
def postCityErrors (b : PostBody) : List FieldError :=
  if lenOk 1 25 (jsTrim (toVal b.companyCity)) then [] else [⟨"companyCity", cityMsg⟩]

/-- `validationResult(req)` for the POST route: all three chains run, and
their errors are concatenated in declaration order. -/
def postErrors (b : PostBody) : List FieldError :=
  postIdErrors b ++ postNameErrors b ++ postCityErrors b

/-- The companyId value the POST handler reads from `req.body`: the chain has
no sanitizer, so it is the raw submitted value. -/
def postSanitizedId (b : PostBody) : String := toVal b.companyId

/-- The companyName value the POST handler reads: trimmed then HTML-escaped. -/
def postSanitizedName (b : PostBody) : String :=
  escapeHtml (jsTrim (toVal b.companyName))

/-- The companyCity value the POST handler reads: trimmed then HTML-escaped. -/
def postSanitizedCity (b : PostBody) : String :=
  escapeHtml (jsTrim (toVal b.companyCity))

/-- `param('companyId').isLength({min:1,max:6})` (lines 149, 237, 288): the
path parameter is length-checked raw, with no trim and no escape. -/
def paramIdErrors (id : String) : List FieldError :=
  if lenOk 1 6 id then [] else [⟨"companyId", idMsg⟩]

/-- An `optional().trim().isLength({min:1,max:25}).escape()` body chain
(lines 150-151): skipped when the field is absent. -/
def optFieldErrors (path msg : String) (v : Option String) : List FieldError :=
  match v with
  | none => []
  | some s => if lenOk 1 25 (jsTrim s) then [] else [⟨path, msg⟩]

/-- Sanitized value of an optional trim/escape chain: absent stays absent,
a present value is trimmed then escaped. -/
def sanitizeOpt : Option String → Option String
  | none => none
  | some s => some (escapeHtml (jsTrim s))

/-- A PATCH /api/companies/:companyId request: the id comes from the path
(always present once the route matches), the body fields are optional. -/
structure PatchReq where
  companyId : String
  companyName : Option String
  companyCity : Option String
deriving DecidableEq, Repr

/-- `validationResult(req)` for the PATCH route (lines 148-151). -/
def patchErrors (r : PatchReq) : List FieldError :=
  paramIdErrors r.companyId ++
  optFieldErrors "companyName" nameMsg r.companyName ++
  optFieldErrors "companyCity" cityMsg r.companyCity

/-- A PUT /api/companies/:companyId request: id from the path, name and city
required body fields (absent is coerced to `""` and rejected). -/
structure PutReq where
  companyId : String
  companyName : Option String
  companyCity : Option String
deriving DecidableEq, Repr

/-- `validationResult(req)` for the PUT route (lines 236-239). -/
def putErrors (r : PutReq) : List FieldError :=
  paramIdErrors r.companyId ++
  (if lenOk 1 25 (jsTrim (toVal r.companyName)) then [] else [⟨"companyName", nameMsg⟩]) ++
  (if lenOk 1 25 (jsTrim (toVal r.companyCity)) then [] else [⟨"companyCity", cityMsg⟩])

/-- `validationResult(req)` for the DELETE route (line 288). -/
def deleteErrors (id : String) : List FieldError :=
  paramIdErrors id

/-- JavaScript truthiness of an optional string, as used by
`if (!companyName && !companyCity)` and `if (companyName)` on
lines 163-179: absent and the empty string are falsy. -/
def jsTruthy : Option String → Bool
  | none => false
  | some s => !(s == "")

/-- One row of the `company` table. -/
structure Row where
  id : String
  name : String
  city : String
deriving DecidableEq, Repr

/-- The driver metadata the handlers inspect (`result.affectedRows`,
`result.warningStatus`). -/
structure DbResult where
  affectedRows : Nat
  warningStatus : Nat
deriving DecidableEq, Repr

/-- The kind of SQL statement a query event executes. -/
inductive SqlKind
  | insert
  | update
  | upsert
  | del
  | select
deriving DecidableEq, Repr

/-- Observable actions of a handler, in order: acquiring the pooled
connection, executing one parameterized statement, releasing the
connection, and sending a response with a status code. -/
inductive Event
  | acquire
  | query (kind : SqlKind) (params : List String)
  | release
  | respond (status : Nat)
deriving DecidableEq, Repr

/-- Outcome of one request: response status, the 400 error body (empty
otherwise), the table state after the request, and the event trace. -/
structure HOut where
  status : Nat
  errors : List FieldError
  state : List Row
  trace : List Event
deriving DecidableEq, Repr

/-- Kinds of the SQL statements a trace executes, in order. -/
def queryKinds (t : List Event) : List SqlKind :=
  t.filterMap fun e =>
    match e with
    | .query k _ => some k
    | _ => none

/-- Parameter lists of the SQL statements a trace executes, in order. -/
def queryParams (t : List Event) : List (List String) :=
  t.filterMap fun e =>
    match e with
    | .query _ ps => some ps
    | _ => none

/-- Whether a trace executes any SQL statement at all. -/
def hasQuery (t : List Event) : Bool :=
  t.any fun e =>
    match e with
    | .query _ _ => true
    | _ => false

/-- Whether an error list names a given field. -/
def mentionsField (p : String) (es : List FieldError) : Bool :=
  es.any fun e => e.path == p

/-- Effect of `UPDATE company SET ... WHERE COMPANY_ID = ?` on one matching
row: only the supplied columns are set; COMPANY_ID is never in the SET list
(lines 168-181). -/
def patchSet (name city : Option String) (r : Row) : Row :=
  { r with name := name.getD r.name, city := city.getD r.city }

/-- Table state after the PATCH UPDATE statement. -/
def patchRows (s : List Row) (id : String) (name city : Option String) : List Row :=
  s.map fun r => if r.id = id then patchSet name city r else r

/-- `affectedRows` of the UPDATE: the MariaDB/MySQL protocol reports the
number of rows actually changed (a matching row already holding the new
values does not count). -/
def patchAffected (s : List Row) (id : String) (name city : Option String) : Nat :=
  s.countP fun r => decide (r.id = id ∧ patchSet name city r ≠ r)

/-- The duplicate-key branch of the PUT upsert: `ON DUPLICATE KEY UPDATE
COMPANY_NAME = ?, COMPANY_CITY = ?` sets only these two columns (line 252). -/
def upsertSet (n c : String) (r : Row) : Row :=
  { r with name := n, city := c }

/-- Table state after `INSERT ... ON DUPLICATE KEY UPDATE`: a fresh id is
inserted, an existing id has its name and city updated. -/
def upsertRows (s : List Row) (id n c : String) : List Row :=
  if s.any (fun r => r.id == id) then
    s.map fun r => if r.id = id then upsertSet n c r else r
  else s ++ [⟨id, n, c⟩]

/-- `affectedRows` of the upsert, per the MariaDB/MySQL documentation: 1 when
the row is inserted, 2 per existing row whose values change, 0 per existing
row already holding the submitted values. -/
def upsertAffected (s : List Row) (id n c : String) : Nat :=
  if s.any (fun r => r.id == id) then
    2 * s.countP (fun r => decide (r.id = id ∧ upsertSet n c r ≠ r))
  else 1

/-- Driver result of the upsert; no warning is raised for in-bounds values,
so `warningStatus` is 0. -/
def upsertResult (s : List Row) (id n c : String) : DbResult :=
  ⟨upsertAffected s id n c, 0⟩

/-- Lines 255-259: 201 when `result.affectedRows === 1 &&
result.warningStatus === 0`, otherwise 200. -/
def putRespond (d : DbResult) : Nat :=
  if d.affectedRows == 1 && d.warningStatus == 0 then 201 else 200

/-- POST /api/companies (lines 85-110).  The handler acquires a connection
(line 90) before inspecting `validationResult` (line 91); the validation
400 returns without reaching the try/finally, so that exit path has no
release event.  The INSERT throws on a duplicate COMPANY_ID; `dbFail`
models every other thrown database error.  The finally clause releases
the connection on the query paths. -/
def postHandler (b : PostBody) (s : List Row) (dbFail : Bool) : HOut :=
  if postErrors b ≠ [] then
    ⟨400, postErrors b, s, [.acquire, .respond 400]⟩
  else
    let ps := [postSanitizedId b, postSanitizedName b, postSanitizedCity b]
    if dbFail || s.any (fun r => r.id == postSanitizedId b) then
      ⟨500, [], s, [.acquire, .query .insert ps, .respond 500, .release]⟩
    else
      ⟨201, [], s ++ [⟨postSanitizedId b, postSanitizedName b, postSanitizedCity b⟩],
        [.acquire, .query .insert ps, .respond 201, .release]⟩

/-- The companyName value the PATCH UPDATE uses: the sanitized field when it
is truthy (line 172 `if (companyName)`), otherwise no COMPANY_NAME column. -/
def patchUsedName (r : PatchReq) : Option String :=
  let v := sanitizeOpt r.companyName
  if jsTruthy v then v else none

/-- The companyCity value the PATCH UPDATE uses (line 176). -/
def patchUsedCity (r : PatchReq) : Option String :=
  let v := sanitizeOpt r.companyCity
  if jsTruthy v then v else none

/-- PATCH /api/companies/:companyId (lines 148-195).  Connection acquired
before the validation check; the validation 400 and the no-fields 400
(lines 163-165) both return before the try/finally, so neither releases.
The UPDATE is built from the truthy fields only, its parameter list is the
supplied values followed by the id (lines 169-182); zero affected rows map
to 404 (lines 185-187). -/
def patchHandler (r : PatchReq) (s : List Row) (dbFail : Bool) : HOut :=
  if patchErrors r ≠ [] then
    ⟨400, patchErrors r, s, [.acquire, .respond 400]⟩
  else if !(jsTruthy (sanitizeOpt r.companyName) || jsTruthy (sanitizeOpt r.companyCity)) then
    ⟨400, [], s, [.acquire, .respond 400]⟩
  else
    let nameU := patchUsedName r
    let cityU := patchUsedCity r
    let ps := nameU.toList ++ cityU.toList ++ [r.companyId]
    if dbFail then
      ⟨500, [], s, [.acquire, .query .update ps, .respond 500, .release]⟩
    else
      let st := if patchAffected s r.companyId nameU cityU = 0 then 404 else 200
      ⟨st, [], patchRows s r.companyId nameU cityU,
        [.acquire, .query .update ps, .respond st, .release]⟩

/-- PUT /api/companies/:companyId (lines 236-266).  Connection acquired
before the validation check; the validation 400 returns without a release.
The upsert parameters are id, name, city, name, city (line 253); the status
comes from `putRespond` on the driver result (lines 255-259). -/
def putHandler (r : PutReq) (s : List Row) (dbFail : Bool) : HOut :=
  if putErrors r ≠ [] then
    ⟨400, putErrors r, s, [.acquire, .respond 400]⟩
  else
    let n := escapeHtml (jsTrim (toVal r.companyName))
    let c := escapeHtml (jsTrim (toVal r.companyCity))
    let ps := [r.companyId, n, c, n, c]
    if dbFail then
      ⟨500, [], s, [.acquire, .query .upsert ps, .respond 500, .release]⟩
    else
      let st := putRespond (upsertResult s r.companyId n c)
      ⟨st, [], upsertRows s r.companyId n c,
        [.acquire, .query .upsert ps, .respond st, .release]⟩

/-- DELETE /api/companies/:companyId (lines 287-310).  Connection acquired
before the validation check; the validation 400 returns without a release.
Zero affected rows map to 404 (lines 300-302). -/
def deleteHandler (id : String) (s : List Row) (dbFail : Bool) : HOut :=
  if deleteErrors id ≠ [] then
    ⟨400, deleteErrors id, s, [.acquire, .respond 400]⟩
  else if dbFail then
    ⟨500, [], s, [.acquire, .query .del [id], .respond 500, .release]⟩
  else
    let st := if s.countP (fun r => r.id == id) = 0 then 404 else 200
    ⟨st, [], s.filter (fun r => !(r.id == id)),
      [.acquire, .query .del [id], .respond st, .release]⟩

/-- C1: the claim says every mutating handler releases its acquired
connection on every exit path, including validation failure.  The code does
not: each handler acquires the connection before checking `validationResult`
and the validation 400 returns before the try/finally, so on that path the
connection is acquired and never released.  Shown here at a concrete
invalid request (a 7-character companyId) for all four routes. -/
theorem c1_validation_leak :
    (Event.acquire ∈ (postHandler ⟨some "ABCDEFG", some "TechCorp", some "Boston"⟩ [] false).trace ∧
     Event.release ∉ (postHandler ⟨some "ABCDEFG", some "TechCorp", some "Boston"⟩ [] false).trace) ∧
    (Event.acquire ∈ (patchHandler ⟨"ABCDEFG", some "TechCorp", none⟩ [] false).trace ∧
     Event.release ∉ (patchHandler ⟨"ABCDEFG", some "TechCorp", none⟩ [] false).trace) ∧
    (Event.acquire ∈ (putHandler ⟨"ABCDEFG", some "TechCorp", some "Boston"⟩ [] false).trace ∧
     Event.release ∉ (putHandler ⟨"ABCDEFG", some "TechCorp", some "Boston"⟩ [] false).trace) ∧
    (Event.acquire ∈ (deleteHandler "ABCDEFG" [] false).trace ∧
     Event.release ∉ (deleteHandler "ABCDEFG" [] false).trace) := by
  decide

/-- C2 counterexample: the claim says a request failing validation gets its
400 before any interaction with the database — in particular no connection
is acquired.  On the code, the POST handler acquires the connection first:
the whole trace of this invalid request is acquire, then the 400. -/
theorem c2_acquire_before_validation :
    (postHandler ⟨some "ABCDEFG", some "TechCorp", some "Boston"⟩ [] false).trace =
      [Event.acquire, Event.respond 400] := by
  decide

/-- C2 amended: on a payload failing field validation every mutating handler
responds 400 and executes no SQL statement; however a pooled connection is
acquired before validation runs (see the counterexample), so only the
statement part of the claim holds. -/
theorem c2_no_sql_before_validation
    (b : PostBody) (pr : PatchReq) (pu : PutReq) (did : String)
    (s : List Row) (f : Bool)
    (hb : postErrors b ≠ []) (hp : patchErrors pr ≠ [])
    (hu : putErrors pu ≠ []) (hd : deleteErrors did ≠ []) :
    ((postHandler b s f).status = 400 ∧ hasQuery (postHandler b s f).trace = false) ∧
    ((patchHandler pr s f).status = 400 ∧ hasQuery (patchHandler pr s f).trace = false) ∧
    ((putHandler pu s f).status = 400 ∧ hasQuery (putHandler pu s f).trace = false) ∧
    ((deleteHandler did s f).status = 400 ∧ hasQuery (deleteHandler did s f).trace = false) := by
  simp [postHandler, patchHandler, putHandler, deleteHandler, hb, hp, hu, hd, hasQuery]

/-- Witness for the amended C2 at concrete invalid requests. -/
theorem c2_no_sql_before_validation_witness :
    (postHandler ⟨some "ABCDEFG", some "TechCorp", some "Boston"⟩ [] false).status = 400 ∧
    hasQuery (postHandler ⟨some "ABCDEFG", some "TechCorp", some "Boston"⟩ [] false).trace = false :=
  (c2_no_sql_before_validation ⟨some "ABCDEFG", some "TechCorp", some "Boston"⟩
    ⟨"ABCDEFG", some "TechCorp", none⟩ ⟨"ABCDEFG", some "TechCorp", some "Boston"⟩
    "ABCDEFG" [] false (by decide) (by decide) (by decide) (by decide)).1

/-- C5: a PATCH supplying neither companyName nor companyCity always gets a
400: either the id fails validation (400 from the validator) or the
explicit at-least-one-field check on lines 163-165 fires, in both cases
before any database statement, so the table state and id validity are
irrelevant. -/
theorem c5_patch_no_fields_400 (id : String) (s : List Row) (f : Bool) :
    (patchHandler ⟨id, none, none⟩ s f).status = 400 := by
  by_cases h : patchErrors ⟨id, none, none⟩ ≠ []
  · simp [patchHandler, h]
  · simp [patchHandler, h, sanitizeOpt, jsTruthy]

/-- C3: for a PUT whose fields pass validation, the response status is 201
exactly when the driver result carries one affected row and warning status
zero, 200 in every other non-error case; the handler status is exactly
`putRespond` of the upsert's driver result. -/
theorem c3_put_status_discrimination (d : DbResult) (r : PutReq) (s : List Row)
    (h : putErrors r = []) :
    ((putRespond d = 201) ↔ (d.affectedRows = 1 ∧ d.warningStatus = 0)) ∧
    (¬(d.affectedRows = 1 ∧ d.warningStatus = 0) → putRespond d = 200) ∧
    (putHandler r s false).status =
      putRespond (upsertResult s r.companyId
        (escapeHtml (jsTrim (toVal r.companyName))) (escapeHtml (jsTrim (toVal r.companyCity)))) := by
  refine ⟨?_, ?_, ?_⟩
  · rcases d with ⟨a, w⟩
    by_cases ha : a = 1 <;> by_cases hw : w = 0 <;> simp [putRespond, ha, hw]
  · intro hn
    rcases d with ⟨a, w⟩
    rcases Decidable.not_and_iff_or_not.mp hn with ha | hw
    · simp [putRespond, ha]
    · simp [putRespond, hw]
  · simp [putHandler, h]

/-- Witness for C3 at a concrete valid PUT over the empty table. -/
theorem c3_put_status_discrimination_witness :
    (putHandler ⟨"C001", some "TechCorp", some "Boston"⟩ [] false).status =
      putRespond (upsertResult [] "C001"
        (escapeHtml (jsTrim (toVal (some "TechCorp")))) (escapeHtml (jsTrim (toVal (some "Boston"))))) :=
  (c3_put_status_discrimination ⟨1, 0⟩ ⟨"C001", some "TechCorp", some "Boston"⟩ []
    (by decide)).2.2

/-- C4: a PATCH passing validation with at least one truthy field goes
straight to the UPDATE — the trace holds exactly one SQL statement, the
UPDATE itself, never a preliminary SELECT — and a zero-affected-rows result
maps to a 404 response. -/
theorem c4_patch_zero_affected_404 (r : PatchReq) (s : List Row)
    (hv : patchErrors r = [])
    (hf : (jsTruthy (sanitizeOpt r.companyName) || jsTruthy (sanitizeOpt r.companyCity)) = true)
    (h0 : patchAffected s r.companyId (patchUsedName r) (patchUsedCity r) = 0) :
    (patchHandler r s false).status = 404 ∧
    queryKinds (patchHandler r s false).trace = [SqlKind.update] := by
  simp [patchHandler, hv, hf, h0, queryKinds]

/-- Witness for C4: a valid PATCH of an id absent from the empty table. -/
theorem c4_patch_zero_affected_404_witness :
    (patchHandler ⟨"C001", some "TechCorp", none⟩ [] false).status = 404 ∧
    queryKinds (patchHandler ⟨"C001", some "TechCorp", none⟩ [] false).trace = [SqlKind.update] :=
  c4_patch_zero_affected_404 ⟨"C001", some "TechCorp", none⟩ []
    (by decide) (by decide) (by decide)

/-- The upsert's duplicate-key branch writes a row's name and city fields
and nothing else. -/
theorem upsertSet_eq (n c : String) (r : Row) : upsertSet n c r = ⟨r.id, n, c⟩ := rfl

/-- A row of the upserted table carrying the upserted id holds exactly the
submitted name and city. -/
theorem upsertRows_mem (s : List Row) (id n c : String) :
    ∀ row ∈ upsertRows s id n c, row.id = id → row = ⟨id, n, c⟩ := by
  intro row hrow hid
  unfold upsertRows at hrow
  cases hany : s.any (fun r => r.id == id) with
  | true =>
    rw [hany] at hrow
    simp only [if_true] at hrow
    rcases List.mem_map.mp hrow with ⟨r, hr, hfr⟩
    by_cases hrid : r.id = id
    · rw [if_pos hrid] at hfr
      rw [← hfr, upsertSet_eq, hrid]
    · rw [if_neg hrid] at hfr
      exact absurd (hfr ▸ hid) hrid
  | false =>
    rw [hany] at hrow
    simp only [Bool.false_eq_true, if_false] at hrow
    rcases List.mem_append.mp hrow with hs | hlast
    · have := List.any_eq_false.mp hany row hs
      simp only [beq_iff_eq] at this
      exact absurd hid this
    · simpa using hlast

/-- After an upsert, some row carries the upserted id. -/
theorem upsertRows_any (s : List Row) (id n c : String) :
    (upsertRows s id n c).any (fun r => r.id == id) = true := by
  unfold upsertRows
  cases hany : s.any (fun r => r.id == id) with
  | true =>
    simp only [if_true]
    rcases List.any_eq_true.mp hany with ⟨r, hr, hrid⟩
    apply List.any_eq_true.mpr
    refine ⟨if r.id = id then upsertSet n c r else r, List.mem_map_of_mem _ hr, ?_⟩
    simp only [beq_iff_eq] at hrid
    rw [if_pos hrid, upsertSet_eq]
    simp [hrid]
  | false =>
    simp only [Bool.false_eq_true, if_false]
    simp

/-- A table in which some row carries the id and every such row already
holds the submitted name and city is a fixed point of the upsert. -/
theorem upsertRows_fixed (t : List Row) (id n c : String)
    (hany : t.any (fun r => r.id == id) = true)
    (hmem : ∀ row ∈ t, row.id = id → row = ⟨id, n, c⟩) :
    upsertRows t id n c = t := by
  unfold upsertRows
  rw [if_pos hany]
  have hid := List.map_id t
  nth_rewrite 2 [← hid]
  apply List.map_congr_left
  intro row hrow
  by_cases hrid : row.id = id
  · rw [if_pos hrid, hmem row hrow hrid, upsertSet_eq]
    rfl
  · rw [if_neg hrid]
    rfl

/-- Upserting the same id, name and city twice leaves the table where one
upsert put it. -/
theorem upsertRows_idem (s : List Row) (id n c : String) :
    upsertRows (upsertRows s id n c) id n c = upsertRows s id n c :=
  upsertRows_fixed (upsertRows s id n c) id n c
    (upsertRows_any s id n c) (upsertRows_mem s id n c)

/-- Repeating an upsert changes no row, so the driver reports zero affected
rows the second time. -/
theorem upsertAffected_after (s : List Row) (id n c : String) :
    upsertAffected (upsertRows s id n c) id n c = 0 := by
  unfold upsertAffected
  rw [if_pos (upsertRows_any s id n c)]
  rw [Nat.mul_eq_zero]
  right
  rw [List.countP_eq_zero]
  intro a ha
  simp only [decide_eq_true_eq, not_and, ne_eq, not_not]
  intro haid
  rw [upsertRows_mem s id n c a ha haid, upsertSet_eq]

/-- C7: the PATCH UPDATE sets only COMPANY_NAME and COMPANY_CITY, and the
PUT upsert's duplicate-key branch likewise: the list of row ids is unchanged
by a PATCH, and by a PUT whose id already names a row. -/
theorem c7_id_immutable (s : List Row) (id n c : String) (nm ct : Option String)
    (h : ∃ row ∈ s, row.id = id) :
    (patchRows s id nm ct).map Row.id = s.map Row.id ∧
    (upsertRows s id n c).map Row.id = s.map Row.id := by
  constructor
  · unfold patchRows
    rw [List.map_map]
    apply List.map_congr_left
    intro r _
    by_cases hr : r.id = id
    · simp [hr, patchSet]
    · simp [hr]
  · unfold upsertRows
    have hany : s.any (fun r => r.id == id) = true := by
      rcases h with ⟨row, hrow, hid⟩
      exact List.any_eq_true.mpr ⟨row, hrow, by simp [hid]⟩
    rw [if_pos hany, List.map_map]
    apply List.map_congr_left
    intro r _
    by_cases hr : r.id = id
    · simp [hr, upsertSet_eq]
    · simp [hr]

/-- Witness for C7 on a one-row table holding the targeted id. -/
theorem c7_id_immutable_witness :
    (patchRows [⟨"C001", "A", "B"⟩] "C001" (some "N") none).map Row.id =
      ([⟨"C001", "A", "B"⟩] : List Row).map Row.id ∧
    (upsertRows [⟨"C001", "A", "B"⟩] "C001" "N" "C").map Row.id =
      ([⟨"C001", "A", "B"⟩] : List Row).map Row.id :=
  c7_id_immutable [⟨"C001", "A", "B"⟩] "C001" "N" "C" (some "N") none (by decide)

/-- C6: PUT is idempotent on the table — running the same valid PUT on the
state it produced leaves that state unchanged and responds 200; the first
PUT of an id absent from the table responds 201. -/
theorem c6_put_idempotent (r : PutReq) (s : List Row) (h : putErrors r = []) :
    (putHandler r (putHandler r s false).state false).state = (putHandler r s false).state ∧
    (putHandler r (putHandler r s false).state false).status = 200 ∧
    ((¬ ∃ row ∈ s, row.id = r.companyId) → (putHandler r s false).status = 201) := by
  refine ⟨?_, ?_, ?_⟩
  · simp only [putHandler, h, ne_eq, not_true_eq_false, if_false, Bool.false_eq_true,
      reduceIte]
    exact upsertRows_idem s r.companyId _ _
  · simp only [putHandler, h, ne_eq, not_true_eq_false, if_false, Bool.false_eq_true,
      reduceIte]
    unfold upsertResult
    rw [upsertAffected_after]
    rfl
  · intro hne
    have hany : s.any (fun row => row.id == r.companyId) = false := by
      apply List.any_eq_false.mpr
      intro row hrow
      simp only [beq_iff_eq]
      exact fun hid => hne ⟨row, hrow, hid⟩
    simp only [putHandler, h, ne_eq, not_true_eq_false, if_false, Bool.false_eq_true,
      reduceIte]
    unfold upsertResult upsertAffected
    rw [if_neg (by rw [hany]; exact Bool.false_ne_true)]
    rfl

/-- Witness for C6: the same PUT twice over the initially empty table. -/
theorem c6_put_idempotent_witness :
    (putHandler ⟨"C001", some "TechCorp", some "Boston"⟩
        (putHandler ⟨"C001", some "TechCorp", some "Boston"⟩ [] false).state false).state =
      (putHandler ⟨"C001", some "TechCorp", some "Boston"⟩ [] false).state ∧
    (putHandler ⟨"C001", some "TechCorp", some "Boston"⟩
        (putHandler ⟨"C001", some "TechCorp", some "Boston"⟩ [] false).state false).status = 200 ∧
    (putHandler ⟨"C001", some "TechCorp", some "Boston"⟩ [] false).status = 201 :=
  ⟨(c6_put_idempotent ⟨"C001", some "TechCorp", some "Boston"⟩ [] (by decide)).1,
   (c6_put_idempotent ⟨"C001", some "TechCorp", some "Boston"⟩ [] (by decide)).2.1,
   (c6_put_idempotent ⟨"C001", some "TechCorp", some "Boston"⟩ [] (by decide)).2.2 (by decide)⟩

/-- C8: a POST companyName whose trimmed length is 25 produces no error
naming that field; one whose trimmed length is 26 fails the length check,
so the response is 400 and its error body names companyName. -/
theorem c8_name_length_boundary (b25 b26 : PostBody) (s : List Row) (f : Bool)
    (h25 : (jsTrim (toVal b25.companyName)).length = 25)
    (h26 : (jsTrim (toVal b26.companyName)).length = 26) :
    mentionsField "companyName" (postErrors b25) = false ∧
    ((postHandler b26 s f).status = 400 ∧
     mentionsField "companyName" (postHandler b26 s f).errors = true) := by
  constructor
  · simp only [postErrors, postIdErrors, postNameErrors, postCityErrors, mentionsField,
      List.any_append, lenOk, h25, Bool.or_eq_false_iff]
    refine ⟨⟨?_, by simp⟩, ?_⟩ <;> split <;> simp
  · have hmem : (⟨"companyName", nameMsg⟩ : FieldError) ∈ postErrors b26 := by
      unfold postErrors
      apply List.mem_append.mpr
      left
      apply List.mem_append.mpr
      right
      simp [postNameErrors, lenOk, h26]
    have hne : postErrors b26 ≠ [] := List.ne_nil_of_mem hmem
    refine ⟨by simp [postHandler, hne], ?_⟩
    simp only [postHandler, hne, ne_eq, not_false_eq_true, if_true]
    exact List.any_eq_true.mpr ⟨_, hmem, by simp⟩

/-- Witness for C8 with names of 25 and 26 characters. -/
theorem c8_name_length_boundary_witness :
    mentionsField "companyName"
      (postErrors ⟨some "C001", some "AAAAAAAAAAAAAAAAAAAAAAAAA", some "Boston"⟩) = false ∧
    ((postHandler ⟨some "C001", some "AAAAAAAAAAAAAAAAAAAAAAAAAA", some "Boston"⟩ [] false).status = 400 ∧
     mentionsField "companyName"
       (postHandler ⟨some "C001", some "AAAAAAAAAAAAAAAAAAAAAAAAAA", some "Boston"⟩ [] false).errors = true) :=
  c8_name_length_boundary ⟨some "C001", some "AAAAAAAAAAAAAAAAAAAAAAAAA", some "Boston"⟩
    ⟨some "C001", some "AAAAAAAAAAAAAAAAAAAAAAAAAA", some "Boston"⟩ [] false
    (by decide) (by decide)

/-- C9: validation evaluates every field rule — each field's error is in the
collected list exactly when that field's own check fails, independently of
the other fields — and whenever the list is nonempty the handler sends a
single 400 whose body is that whole list. -/
theorem c9_errors_enumerate_all (b : PostBody) (s : List Row) (f : Bool)
    (h : postErrors b ≠ []) :
    ((⟨"companyId", idMsg⟩ : FieldError) ∈ postErrors b ↔
      lenOk 1 6 (toVal b.companyId) = false) ∧
    ((⟨"companyName", nameMsg⟩ : FieldError) ∈ postErrors b ↔
      lenOk 1 25 (jsTrim (toVal b.companyName)) = false) ∧
    ((⟨"companyCity", cityMsg⟩ : FieldError) ∈ postErrors b ↔
      lenOk 1 25 (jsTrim (toVal b.companyCity)) = false) ∧
    ((postHandler b s f).status = 400 ∧ (postHandler b s f).errors = postErrors b) := by
  cases h1 : lenOk 1 6 (toVal b.companyId) <;>
    cases h2 : lenOk 1 25 (jsTrim (toVal b.companyName)) <;>
      cases h3 : lenOk 1 25 (jsTrim (toVal b.companyCity)) <;>
        simp_all [postErrors, postIdErrors, postNameErrors, postCityErrors, postHandler,
          idMsg, nameMsg, cityMsg]

/-- Witness for C9: a request in which all three fields fail, whose 400 body
lists all three errors. -/
theorem c9_errors_enumerate_all_witness :
    ((⟨"companyId", idMsg⟩ : FieldError) ∈ postErrors ⟨some "", some "", some ""⟩ ↔
      lenOk 1 6 (toVal (some "")) = false) ∧
    ((⟨"companyName", nameMsg⟩ : FieldError) ∈ postErrors ⟨some "", some "", some ""⟩ ↔
      lenOk 1 25 (jsTrim (toVal (some ""))) = false) ∧
    ((⟨"companyCity", cityMsg⟩ : FieldError) ∈ postErrors ⟨some "", some "", some ""⟩ ↔
      lenOk 1 25 (jsTrim (toVal (some ""))) = false) ∧
    ((postHandler ⟨some "", some "", some ""⟩ [] false).status = 400 ∧
     (postHandler ⟨some "", some "", some ""⟩ [] false).errors =
       postErrors ⟨some "", some "", some ""⟩) :=
  c9_errors_enumerate_all ⟨some "", some "", some ""⟩ [] false (by decide)

/-- A companyName of 25 ampersands (code point 38). -/
def amp25 : String := String.mk (List.replicate 25 (Char.ofNat 38))

set_option maxRecDepth 8000 in
/-- C10 counterexample: the claim says companyName is trimmed and escaped
before the length check.  In the chain `trim().isLength().escape()` the
escape runs after the check: a name of 25 ampersands passes validation with
no error at all, yet the value the handler sends to SQL — the escaped one —
has 125 characters, five times the declared bound. -/
theorem c10_escape_after_check_counterexample :
    postErrors ⟨some "C001", some amp25, some "Boston"⟩ = [] ∧
    (postSanitizedName ⟨some "C001", some amp25, some "Boston"⟩).length = 125 := by
  decide

/-- C10 amended: companyId is checked only for raw length 1-6 — no trim, no
escape — and is passed verbatim as the SQL parameter (a whitespace-only id
passes, see the witness); companyName and companyCity are trimmed before
their length check and HTML-escaped after it, the escaped value being the
SQL parameter. -/
theorem c10_id_raw_fields_trimmed_then_escaped
    (b : PostBody) (s : List Row) (did : String)
    (hb : postErrors b = [])
    (hdup : s.any (fun r => r.id == postSanitizedId b) = false)
    (hd : deleteErrors did = []) :
    lenOk 1 6 (toVal b.companyId) = true ∧
    postSanitizedId b = toVal b.companyId ∧
    lenOk 1 25 (jsTrim (toVal b.companyName)) = true ∧
    queryParams (postHandler b s false).trace =
      [[toVal b.companyId, escapeHtml (jsTrim (toVal b.companyName)),
        escapeHtml (jsTrim (toVal b.companyCity))]] ∧
    queryParams (deleteHandler did s false).trace = [[did]] := by
  have hid : postIdErrors b = [] := by
    have := List.append_eq_nil.mp hb
    exact (List.append_eq_nil.mp this.1).1
  have hname : postNameErrors b = [] := by
    have := List.append_eq_nil.mp hb
    exact (List.append_eq_nil.mp this.1).2
  refine ⟨?_, rfl, ?_, ?_, ?_⟩
  · cases hc : lenOk 1 6 (toVal b.companyId)
    · rw [postIdErrors, hc] at hid
      simp at hid
    · rfl
  · cases hc : lenOk 1 25 (jsTrim (toVal b.companyName))
    · rw [postNameErrors, hc] at hname
      simp at hname
    · rfl
  · have h1 : ¬(postErrors b ≠ []) := by
      rw [hb]
      exact fun hx => hx rfl
    have h2 : ¬((false || s.any fun r => r.id == postSanitizedId b) = true) := by
      rw [Bool.false_or, hdup]
      exact Bool.false_ne_true
    simp only [postHandler]
    rw [if_neg h1, if_neg h2]
    rfl
  · have h1 : ¬(deleteErrors did ≠ []) := by
      rw [hd]
      exact fun hx => hx rfl
    simp only [deleteHandler]
    rw [if_neg h1]
    rfl

/-- Witness for the amended C10: an id of three spaces passes validation on
POST and DELETE and reaches the SQL parameters verbatim. -/
theorem c10_id_raw_fields_trimmed_then_escaped_witness :
    lenOk 1 6 (toVal (some "   ")) = true ∧
    postSanitizedId ⟨some "   ", some "TechCorp", some "Boston"⟩ = toVal (some "   ") ∧
    lenOk 1 25 (jsTrim (toVal (some "TechCorp"))) = true ∧
    queryParams (postHandler ⟨some "   ", some "TechCorp", some "Boston"⟩ [] false).trace =
      [[toVal (some "   "), escapeHtml (jsTrim (toVal (some "TechCorp"))),
        escapeHtml (jsTrim (toVal (some "Boston")))]] ∧
    queryParams (deleteHandler "   " [] false).trace = [["   "]] :=
  c10_id_raw_fields_trimmed_then_escaped ⟨some "   ", some "TechCorp", some "Boston"⟩ [] "   "
    (by decide) (by decide) (by decide)

end Server
